import Mathlib

/-!
Shallow embedding of `run_amadeus_node.py`, a build-and-launch orchestrator
for the Amadeus node binary.  The script is a sequential pipeline
(dependency check → clone/update → image build → containerized compile →
binary resolution → exec-replacement launch).  External effects (presence
of commands on PATH, exit codes of invoked programs, filesystem contents,
the output of the fallback `find` search, the inherited environment) are
modelled as an oracle structure `World`; the mutable object state of
`AmadeusNodeBuilder` is the structure `Builder`.  `sys.exit(c)` is modelled
as `Except.error c`; a stage that returns normally is `Except.ok`.
-/

set_option autoImplicit false

namespace Amadeus

/-- Environment dictionaries (`os.environ` and the dict passed to `execve`)
are modelled as association lists of string pairs, in insertion order, the
way CPython's `dict` keeps its entries. -/
abbrev EnvDict := List (String × String)

/-- Lookup of a key in an environment dictionary: the value at the first
entry whose key matches (in a dict built by `dictInsert` keys are unique,
so this is dict lookup). -/
def dictGet : EnvDict → String → Option String
  | [], _ => none
  | p :: d, k => if p.1 = k then some p.2 else dictGet d k

/-- Key-membership test of a dictionary, as Python's `k in d`. -/
def dictHasKey : EnvDict → String → Bool
  | [], _ => false
  | p :: d, k => (p.1 = k : Bool) || dictHasKey d k

/-- Replace the value stored under key `k` (every entry with that key),
keeping entry order, as CPython does for assignment to an existing key. -/
def dictSetExisting : EnvDict → String → String → EnvDict
  | [], _, _ => []
  | p :: d, k, v => if p.1 = k then (k, v) :: dictSetExisting d k v
                    else p :: dictSetExisting d k v

/-- Python dict assignment `d[k] = v`: overwrite in place when the key is
present, append a fresh entry otherwise. -/
def dictInsert (d : EnvDict) (k v : String) : EnvDict :=
  if dictHasKey d k then dictSetExisting d k v else d ++ [(k, v)]

/-- Python `d.update(kvs)`: assign each pair in order. -/
def dictUpdate (d : EnvDict) : List (String × String) → EnvDict
  | [] => d
  | (k, v) :: rest => dictUpdate (dictInsert d k v) rest

/-- Path concatenation, `pathlib.Path.__truediv__`. -/
def pathJoin (a b : String) : String := a ++ "/" ++ b

/-- Mutable state of `AmadeusNodeBuilder` (`__init__`, lines 43-52 of
`run_amadeus_node.py`). -/
structure Builder where
  repo_url : String := "https://github.com/amadeusprotocol/node.git"
  repo_dir : String := "amadeus-node"
  builder_image : String := "erlang_builder"
  binary_name : String := "amadeusd"
  port : Nat := 8080
  workdir : String := "/tmp/amadeus"
  container_runtime : String := "auto"
  runtime_cmd : Option String := none
  deriving Repr, DecidableEq

/-- Oracle for everything outside the script: PATH contents, exit codes of
the external commands it runs, the filesystem, the `find` search results,
the inherited environment and whether `execve` succeeds.  Each pipeline run
reads this fixed world. -/
structure World where
  commandExists : String → Bool
  repoDirExists : Bool
  pullExit : Nat
  cloneExit : Nat
  resolve : String → String
  fileExists : String → Bool
  buildExit : Nat
  makeExit : Nat
  findExit : Nat
  findMatches : List String
  inheritedEnv : EnvDict
  execveSucceeds : Bool

/-- Exit-code semantics of `run_command` (lines 86-108): with `check=True`
a non-zero exit raises `CalledProcessError`, caught and turned into
`sys.exit(e.returncode)`; with `check=False` the result is returned
regardless. -/
def run_command (check : Bool) (exitCode : Nat) : Except Nat Unit :=
  if check then
    if exitCode ≠ 0 then Except.error exitCode else Except.ok ()
  else Except.ok ()

/-- Capturing variant of `run_command` (`capture_output=True`): on success
it returns `result.stdout.strip()`. -/
def run_command_captured (exitCode : Nat) (stdoutStripped : String) :
    Except Nat String :=
  if exitCode ≠ 0 then Except.error exitCode else Except.ok stdoutStripped

/-- Stdout of `find <repo_dir> -name <binary> -type f` after Python
`strip()`: `find` prints one matched path per line with a trailing newline,
so the stripped capture is the matches joined by newlines (match paths
start with the search root, hence carry no leading/trailing whitespace). -/
def findCapturedOutput (ms : List String) : String :=
  String.intercalate "\n" ms

/-- `detect_container_runtime` (lines 58-84): under `auto` probe docker
then podman; under an explicit choice probe only that engine; any failure
is `sys.exit(1)`.  On success the choice is cached in `runtime_cmd`. -/
def detect_container_runtime (b : Builder) (w : World) :
    Except Nat Builder :=
  if b.container_runtime = "auto" then
    if w.commandExists "docker" then
      Except.ok { b with runtime_cmd := some "docker" }
    else if w.commandExists "podman" then
      Except.ok { b with runtime_cmd := some "podman" }
    else Except.error 1
  else if b.container_runtime = "docker" then
    if w.commandExists "docker" then
      Except.ok { b with runtime_cmd := some "docker" }
    else Except.error 1
  else if b.container_runtime = "podman" then
    if w.commandExists "podman" then
      Except.ok { b with runtime_cmd := some "podman" }
    else Except.error 1
  else Except.error 1

/-- `check_dependencies` (lines 110-127): exit 1 when git or make is
missing, then detect the container runtime. -/
def check_dependencies (b : Builder) (w : World) : Except Nat Builder :=
  if (["git", "make"].filter (fun d => ¬ w.commandExists d)) ≠ [] then
    Except.error 1
  else detect_container_runtime b w

/-- `clone_repository` (lines 129-153): pull with `check=False` when the
checkout exists, clone with `check=True` otherwise; then resolve the build
root by looking for `build.Dockerfile` at the resolved checkout root and,
failing that, under its `ex` subdirectory (reassigning `self.repo_dir`);
exit 1 when neither location has it. -/
def clone_repository (b : Builder) (w : World) : Except Nat Builder :=
  match (if w.repoDirExists then run_command false w.pullExit
         else run_command true w.cloneExit) with
  | Except.error e => Except.error e
  | Except.ok _ =>
    if w.fileExists (pathJoin (w.resolve b.repo_dir) "build.Dockerfile") then
      Except.ok b
    else if w.fileExists
        (pathJoin (pathJoin (w.resolve b.repo_dir) "ex") "build.Dockerfile") then
      Except.ok { b with repo_dir := pathJoin (w.resolve b.repo_dir) "ex" }
    else Except.error 1

/-- `build_builder_image` (lines 155-172): defensive re-check that the
descriptor exists at `self.repo_dir` (exit 1 if absent), then run the
container build with `check=True`. -/
def build_builder_image (b : Builder) (w : World) : Except Nat Unit :=
  if w.fileExists (pathJoin b.repo_dir "build.Dockerfile") then
    run_command true w.buildExit
  else Except.error 1

/-- `compile_node` (lines 174-187): run `make` in a disposable container
with `check=True`. -/
def compile_node (w : World) : Except Nat Unit :=
  run_command true w.makeExit

/-- Record of the single `os.chmod(binary_path, 0o755)` call (line 212);
`493 = 0o755`. -/
structure ChmodCall where
  path : String
  mode : Nat
  deriving Repr, DecidableEq

/-- `verify_binary` (lines 189-215): take the conventional path
`repo_dir/binary_name` when it exists; otherwise run `find` with captured
output and, when the stripped output is non-empty, use `Path(result)` —
the whole stripped stdout — as the binary path; exit 1 when the output is
empty.  In every success branch the path is then chmod-ed to `0o755`. -/
def verify_binary (b : Builder) (w : World) :
    Except Nat (String × ChmodCall) :=
  if w.fileExists (pathJoin b.repo_dir b.binary_name) then
    Except.ok (pathJoin b.repo_dir b.binary_name,
      ⟨pathJoin b.repo_dir b.binary_name, 493⟩)
  else
    match run_command_captured w.findExit (findCapturedOutput w.findMatches) with
    | Except.error e => Except.error e
    | Except.ok result =>
      if result ≠ "" then Except.ok (result, ⟨result, 493⟩)
      else Except.error 1

/-- Record of the `os.execve(path, argv, env)` call (line 249). -/
structure ExecCall where
  path : String
  argv : List String
  env : EnvDict
  deriving Repr, DecidableEq

/-- The environment built in `run_node` (lines 236-242):
`os.environ.copy()` updated with the four fixed overrides. -/
def node_env (b : Builder) (inherited : EnvDict) : EnvDict :=
  dictUpdate inherited
    [("TESTNET", "true"),
     ("WORKFOLDER", b.workdir),
     ("HTTP_IPV4", "127.0.0.1"),
     ("HTTP_PORT", toString b.port)]

/-- `run_node` (lines 226-252): build the environment and call
`os.execve(str(binary_path), [str(binary_path)], env)`; an `OSError` from
the replacement is `sys.exit(1)`. -/
def run_node (b : Builder) (w : World) (binary_path : String) :
    Except Nat ExecCall :=
  let env := node_env b w.inheritedEnv
  if w.execveSucceeds then
    Except.ok { path := binary_path, argv := [binary_path], env := env }
  else Except.error 1

/-- Pipeline stages of `build_and_run`, in order of invocation. -/
inductive Stage where
  | checkDeps
  | cloneRepo
  | buildImage
  | compileNode
  | verifyBinary
  | createWorkdir
  | runNode
  deriving Repr, DecidableEq

/-- `build_and_run` (lines 254-277): the strictly ordered pipeline.  The
first component records which stages were entered before the run ended (a
fatal `sys.exit` short-circuits the rest); `create_work_directory` uses
`mkdir(parents=True, exist_ok=True)` and never fails.  A successful result
is the `execve` call that replaced the process. -/
def build_and_run (b : Builder) (w : World) :
    List Stage × Except Nat ExecCall :=
  match check_dependencies b w with
  | Except.error e => ([Stage.checkDeps], Except.error e)
  | Except.ok b1 =>
    match clone_repository b1 w with
    | Except.error e => ([Stage.checkDeps, Stage.cloneRepo], Except.error e)
    | Except.ok b2 =>
      match build_builder_image b2 w with
      | Except.error e =>
        ([Stage.checkDeps, Stage.cloneRepo, Stage.buildImage], Except.error e)
      | Except.ok _ =>
        match compile_node w with
        | Except.error e =>
          ([Stage.checkDeps, Stage.cloneRepo, Stage.buildImage,
            Stage.compileNode], Except.error e)
        | Except.ok _ =>
          match verify_binary b2 w with
          | Except.error e =>
            ([Stage.checkDeps, Stage.cloneRepo, Stage.buildImage,
              Stage.compileNode, Stage.verifyBinary], Except.error e)
          | Except.ok (binary_path, _) =>
            match run_node b2 w binary_path with
            | Except.error e =>
              ([Stage.checkDeps, Stage.cloneRepo, Stage.buildImage,
                Stage.compileNode, Stage.verifyBinary, Stage.createWorkdir,
                Stage.runNode], Except.error e)
            | Except.ok call =>
              ([Stage.checkDeps, Stage.cloneRepo, Stage.buildImage,
                Stage.compileNode, Stage.verifyBinary, Stage.createWorkdir,
                Stage.runNode], Except.ok call)

/-- How `main` (lines 323-342) ends: `build_and_run` either performed the
process replacement (its `Except.ok` never returns control) or raised
`SystemExit`; or a `KeyboardInterrupt` or another `Exception` escaped. -/
inductive PyEvent where
  | completed (r : List Stage × Except Nat ExecCall)
  | keyboardInterrupt
  | otherException

/-- Process exit status produced by `main`: a propagated `sys.exit(c)`
exits with `c` (`SystemExit` is not an `Exception`, so the handlers do not
intercept it), `KeyboardInterrupt` exits 0, any other `Exception` exits 1,
and a completed `execve` never returns (`none`). -/
def main_exit : PyEvent → Option Nat
  | PyEvent.completed (_, Except.error c) => some c
  | PyEvent.completed (_, Except.ok _) => none
  | PyEvent.keyboardInterrupt => some 0
  | PyEvent.otherException => some 1

/-! Concrete fixtures used by witnesses and counterexamples. -/

/-- A baseline world: docker, git and make on PATH, an existing checkout,
all commands succeeding, every file present, an empty find result, a small
inherited environment, and a succeeding `execve`. -/
def wBase : World where
  commandExists := fun c => c == "docker" || c == "git" || c == "make"
  repoDirExists := true
  pullExit := 0
  cloneExit := 0
  resolve := fun s => s
  fileExists := fun _ => true
  buildExit := 0
  makeExit := 0
  findExit := 0
  findMatches := []
  inheritedEnv := [("PATH", "/usr/bin")]
  execveSucceeds := true

/-- The builder with all-default configuration. -/
def bDef : Builder := {}

/-- Builder configured with port 9090 and work directory `/data/x`, the
example configuration named by the spec. -/
def bC1 : Builder := { port := 9090, workdir := "/data/x" }

/-- An inherited environment that already binds one of the override names
(`HTTP_PORT`) plus two unrelated variables. -/
def envC1 : EnvDict :=
  [("PATH", "/usr/bin"), ("HTTP_PORT", "1"), ("HOME", "/root")]

/-- The `execve` call produced at the baseline world for the default
builder and a concrete resolved path. -/
def callC10 : ExecCall :=
  { path := "/r/amadeusd", argv := ["/r/amadeusd"],
    env := node_env bDef wBase.inheritedEnv }

/-- A world where the build descriptor exists only under the `ex`
subdirectory of the default checkout, not at its root. -/
def wEx : World :=
  { wBase with fileExists := fun p => p == "amadeus-node/ex/build.Dockerfile" }

/-- Builder whose checkout directory is `/r`. -/
def bR : Builder := { repo_dir := "/r" }

/-- A world where the build descriptor exists only under `/r/ex`. -/
def wRex : World :=
  { wBase with fileExists := fun p => p == "/r/ex/build.Dockerfile" }

/-- A world with no checkout on disk and a clone that fails with exit
code 128. -/
def wCloneFail : World :=
  { wBase with repoDirExists := false, cloneExit := 128 }

/-- A world where the conventional binary path is absent and the fallback
`find` search returns two matches. -/
def wTwoMatches : World :=
  { wBase with fileExists := fun _ => false,
               findMatches := ["/r/a/amadeusd", "/r/b/amadeusd"] }

/-- A world where the conventional binary path is absent and the fallback
`find` search returns a single match. -/
def wOneMatch : World :=
  { wBase with fileExists := fun _ => false,
               findMatches := ["/r/ex/amadeusd"] }

/-- A world where no file exists at all: in particular the build
descriptor is in neither candidate location. -/
def wNoDesc : World := { wBase with fileExists := fun _ => false }

/-! Dictionary lemmas: lookup after Python-style insertion. -/

/-- Lookup skips a prefix that does not contain the key. -/
theorem dictGet_append_of_hasKey_false (d l : EnvDict) (k : String)
    (h : dictHasKey d k = false) : dictGet (d ++ l) k = dictGet l k := by
  induction d with
  | nil => simp
  | cons p d ih =>
    simp only [dictHasKey, Bool.or_eq_false_iff, decide_eq_false_iff_not] at h
    simp [dictGet, h.1, ih h.2]

/-- Overwriting an existing key makes lookup return the new value. -/
theorem dictGet_setExisting_self (d : EnvDict) (k v : String)
    (h : dictHasKey d k = true) :
    dictGet (dictSetExisting d k v) k = some v := by
  induction d with
  | nil => simp [dictHasKey] at h
  | cons p d ih =>
    by_cases hp : p.1 = k
    · simp [dictSetExisting, hp, dictGet]
    · simp only [dictHasKey, Bool.or_eq_true, decide_eq_true_eq] at h
      rcases h with h | h
      · exact absurd h hp
      · simp [dictSetExisting, hp, dictGet, ih h]

/-- Overwriting key `k` leaves lookups of other keys unchanged. -/
theorem dictGet_setExisting_ne (d : EnvDict) (k v k' : String)
    (h : k' ≠ k) : dictGet (dictSetExisting d k v) k' = dictGet d k' := by
  induction d with
  | nil => simp [dictSetExisting]
  | cons p d ih =>
    by_cases hp : p.1 = k
    · have h1 : ¬ (k = k') := fun hh => h hh.symm
      have h2 : ¬ (p.1 = k') := by rw [hp]; exact h1
      simp [dictSetExisting, hp, dictGet, h1, h2, ih]
    · by_cases hq : p.1 = k'
      · simp [dictSetExisting, hp, dictGet, hq, h]
      · simp [dictSetExisting, hp, dictGet, hq, ih]

/-- Appending an entry for key `k` leaves lookups of other keys unchanged. -/
theorem dictGet_append_ne (d : EnvDict) (k v k' : String) (h : k' ≠ k) :
    dictGet (d ++ [(k, v)]) k' = dictGet d k' := by
  induction d with
  | nil => simp [dictGet, Ne.symm h]
  | cons p d ih =>
    by_cases hq : p.1 = k'
    · simp [dictGet, hq]
    · simp [dictGet, hq, ih]

/-- Python dict assignment: lookup of the assigned key yields the value. -/
theorem dictGet_insert_self (d : EnvDict) (k v : String) :
    dictGet (dictInsert d k v) k = some v := by
  unfold dictInsert
  by_cases h : dictHasKey d k = true
  · simp [h, dictGet_setExisting_self d k v h]
  · have h' : dictHasKey d k = false := by simpa using h
    rw [h']
    simp [dictGet_append_of_hasKey_false d [(k, v)] k h', dictGet]

/-- Python dict assignment: lookups of other keys are unchanged. -/
theorem dictGet_insert_ne (d : EnvDict) (k v k' : String) (h : k' ≠ k) :
    dictGet (dictInsert d k v) k' = dictGet d k' := by
  unfold dictInsert
  by_cases hk : dictHasKey d k
  · simp [hk, dictGet_setExisting_ne d k v k' h]
  · simp [hk, dictGet_append_ne d k v k' h]

/-- The environment of `run_node` as four nested dict assignments. -/
theorem node_env_eq (b : Builder) (e : EnvDict) :
    node_env b e =
      dictInsert (dictInsert (dictInsert (dictInsert e
        "TESTNET" "true") "WORKFOLDER" b.workdir)
        "HTTP_IPV4" "127.0.0.1") "HTTP_PORT" (toString b.port) := rfl

/-- C1: for every configuration and every inherited environment, the
environment handed to the launched binary binds `TESTNET` to `"true"`,
`WORKFOLDER` to the configured work directory, `HTTP_IPV4` to
`"127.0.0.1"` and `HTTP_PORT` to the configured port, these four
overriding any inherited bindings of the same names, and every other
inherited variable is looked up unchanged. -/
theorem C1_launch_env (b : Builder) (env0 : EnvDict) (k : String)
    (hk : k ≠ "TESTNET" ∧ k ≠ "WORKFOLDER" ∧ k ≠ "HTTP_IPV4" ∧
          k ≠ "HTTP_PORT") :
    dictGet (node_env b env0) "TESTNET" = some "true" ∧
    dictGet (node_env b env0) "WORKFOLDER" = some b.workdir ∧
    dictGet (node_env b env0) "HTTP_IPV4" = some "127.0.0.1" ∧
    dictGet (node_env b env0) "HTTP_PORT" = some (toString b.port) ∧
    dictGet (node_env b env0) k = dictGet env0 k := by
  obtain ⟨h1, h2, h3, h4⟩ := hk
  rw [node_env_eq]
  refine ⟨?_, ?_, ?_, ?_, ?_⟩
  · rw [dictGet_insert_ne _ _ _ _ (by decide),
        dictGet_insert_ne _ _ _ _ (by decide),
        dictGet_insert_ne _ _ _ _ (by decide), dictGet_insert_self]
  · rw [dictGet_insert_ne _ _ _ _ (by decide),
        dictGet_insert_ne _ _ _ _ (by decide), dictGet_insert_self]
  · rw [dictGet_insert_ne _ _ _ _ (by decide), dictGet_insert_self]
  · rw [dictGet_insert_self]
  · rw [dictGet_insert_ne _ _ _ _ h4, dictGet_insert_ne _ _ _ _ h3,
        dictGet_insert_ne _ _ _ _ h2, dictGet_insert_ne _ _ _ _ h1]

/-- Witness for C1: with port 9090 and work directory `/data/x`, and an
inherited environment that already binds `HTTP_PORT`, the produced
environment overrides `HTTP_PORT` to `"9090"`, sets `WORKFOLDER` to
`/data/x`, and passes `PATH` through unchanged. -/
theorem C1_launch_env_witness :
    dictGet (node_env bC1 envC1) "HTTP_PORT" = some "9090" ∧
    dictGet (node_env bC1 envC1) "WORKFOLDER" = some "/data/x" ∧
    dictGet (node_env bC1 envC1) "PATH" = some "/usr/bin" := by
  have h := C1_launch_env bC1 envC1 "PATH"
    ⟨by decide, by decide, by decide, by decide⟩
  exact ⟨h.2.2.2.1.trans (by decide), h.2.1.trans (by decide),
         h.2.2.2.2.trans (by decide)⟩

/-- C10: the argument vector passed by `execve` is the single-element list
holding the resolved binary path itself; no orchestrator arguments are
forwarded. -/
theorem C10_argv (b : Builder) (w : World) (p : String) (call : ExecCall)
    (h : run_node b w p = Except.ok call) :
    call.argv = [p] ∧ call.argv.length = 1 := by
  unfold run_node at h
  by_cases hw : w.execveSucceeds
  · simp only [hw, if_true, Except.ok.injEq] at h
    subst h
    exact ⟨rfl, rfl⟩
  · simp [hw] at h

/-- Witness for C10 at a concrete world and path. -/
theorem C10_argv_witness :
    run_node bDef wBase "/r/amadeusd" = Except.ok callC10 ∧
    callC10.argv = ["/r/amadeusd"] := by
  refine ⟨rfl, ?_⟩
  exact (C10_argv bDef wBase "/r/amadeusd" callC10 rfl).1

/-! Lemmas shared across the claims. -/

/-- Runtime detection only caches the choice: every configuration field of
the builder is left unchanged. -/
theorem detect_preserves_fields (b b1 : Builder) (w : World)
    (h : detect_container_runtime b w = Except.ok b1) :
    b1.repo_dir = b.repo_dir ∧ b1.port = b.port ∧ b1.workdir = b.workdir ∧
    b1.container_runtime = b.container_runtime ∧
    b1.binary_name = b.binary_name := by
  unfold detect_container_runtime at h
  split_ifs at h
  all_goals injection h with h
  all_goals subst h
  all_goals exact ⟨rfl, rfl, rfl, rfl, rfl⟩

/-- The dependency check only caches the runtime choice: every
configuration field of the builder is left unchanged. -/
theorem check_dependencies_preserves_fields (b b1 : Builder) (w : World)
    (h : check_dependencies b w = Except.ok b1) :
    b1.repo_dir = b.repo_dir ∧ b1.port = b.port ∧ b1.workdir = b.workdir ∧
    b1.container_runtime = b.container_runtime ∧
    b1.binary_name = b.binary_name := by
  unfold check_dependencies at h
  split_ifs at h
  exact detect_preserves_fields b b1 w h

/-- When the descriptor is in neither location, source preparation exits. -/
theorem clone_error_of_no_descriptor (b : Builder) (w : World)
    (h1 : w.fileExists (pathJoin (w.resolve b.repo_dir)
            "build.Dockerfile") = false)
    (h2 : w.fileExists (pathJoin (pathJoin (w.resolve b.repo_dir) "ex")
            "build.Dockerfile") = false) :
    ∃ e, clone_repository b w = Except.error e := by
  unfold clone_repository
  split
  · exact ⟨_, rfl⟩
  · exact ⟨1, by simp [h1, h2]⟩

/-- C2: after the clone/update step succeeds, the build root is the
checkout itself when the descriptor sits at its (resolved) root; otherwise
it becomes the `ex` subdirectory when the descriptor sits there; otherwise
the stage exits fatally. -/
theorem C2_build_root (b : Builder) (w : World)
    (hclone : w.repoDirExists = true ∨ w.cloneExit = 0) :
    (w.fileExists (pathJoin (w.resolve b.repo_dir)
        "build.Dockerfile") = true →
      clone_repository b w = Except.ok b) ∧
    (w.fileExists (pathJoin (w.resolve b.repo_dir)
        "build.Dockerfile") = false →
     w.fileExists (pathJoin (pathJoin (w.resolve b.repo_dir) "ex")
        "build.Dockerfile") = true →
      clone_repository b w =
        Except.ok { b with repo_dir := pathJoin (w.resolve b.repo_dir) "ex" }) ∧
    (w.fileExists (pathJoin (w.resolve b.repo_dir)
        "build.Dockerfile") = false →
     w.fileExists (pathJoin (pathJoin (w.resolve b.repo_dir) "ex")
        "build.Dockerfile") = false →
      clone_repository b w = Except.error 1) := by
  have hrun : (if w.repoDirExists then run_command false w.pullExit
               else run_command true w.cloneExit) = Except.ok () := by
    rcases hclone with h | h
    · simp [h, run_command]
    · by_cases hr : w.repoDirExists <;> simp [hr, run_command, h]
  refine ⟨?_, ?_, ?_⟩
  · intro h1
    unfold clone_repository
    rw [hrun]
    simp [h1]
  · intro h1 h2
    unfold clone_repository
    rw [hrun]
    simp [h1, h2]
  · intro h1 h2
    unfold clone_repository
    rw [hrun]
    simp [h1, h2]

/-- Witness for C2: with the descriptor only under `ex`, the build root
becomes the `ex` subdirectory. -/
theorem C2_build_root_witness :
    clone_repository bDef wEx =
      Except.ok { bDef with repo_dir := "amadeus-node/ex" } := by
  have h := (C2_build_root bDef wEx (Or.inl rfl)).2.1 (by decide) (by decide)
  exact h

/-- C4: under `auto` the selector picks docker whenever docker is present
(whatever podman's state), picks podman when only podman is present, and
exits 1 when neither is; under an explicit request it selects exactly the
requested engine when present and exits 1 when absent, never falling back
(the other engine's presence is unconstrained). -/
theorem C4_runtime_selection (b : Builder) (w : World) :
    (b.container_runtime = "auto" →
      ((w.commandExists "docker" = true →
          detect_container_runtime b w =
            Except.ok { b with runtime_cmd := some "docker" }) ∧
       (w.commandExists "docker" = false → w.commandExists "podman" = true →
          detect_container_runtime b w =
            Except.ok { b with runtime_cmd := some "podman" }) ∧
       (w.commandExists "docker" = false → w.commandExists "podman" = false →
          detect_container_runtime b w = Except.error 1))) ∧
    (b.container_runtime = "docker" →
      ((w.commandExists "docker" = true →
          detect_container_runtime b w =
            Except.ok { b with runtime_cmd := some "docker" }) ∧
       (w.commandExists "docker" = false →
          detect_container_runtime b w = Except.error 1))) ∧
    (b.container_runtime = "podman" →
      ((w.commandExists "podman" = true →
          detect_container_runtime b w =
            Except.ok { b with runtime_cmd := some "podman" }) ∧
       (w.commandExists "podman" = false →
          detect_container_runtime b w = Except.error 1))) := by
  refine ⟨?_, ?_, ?_⟩ <;> intro hpref
  · exact ⟨fun hd => by simp [detect_container_runtime, hpref, hd],
           fun hd hp => by simp [detect_container_runtime, hpref, hd, hp],
           fun hd hp => by simp [detect_container_runtime, hpref, hd, hp]⟩
  · exact ⟨fun hd => by simp [detect_container_runtime, hpref, hd],
           fun hd => by simp [detect_container_runtime, hpref, hd]⟩
  · exact ⟨fun hp => by simp [detect_container_runtime, hpref, hp],
           fun hp => by simp [detect_container_runtime, hpref, hp]⟩

/-- Witness for C4: at the baseline world docker is present (podman is
not), and the automatic preference selects docker. -/
theorem C4_runtime_selection_witness :
    detect_container_runtime bDef wBase =
      Except.ok { bDef with runtime_cmd := some "docker" } :=
  ((C4_runtime_selection bDef wBase).1 rfl).1 rfl

/-- C5: when the checkout exists, the pull's exit code has no influence on
the stage's result (a failed update is swallowed); when it does not exist,
a failing clone exits fatally with the clone's code, and the whole
pipeline ends right there with that code. -/
theorem C5_update_vs_clone (b b1 : Builder) (w : World) (c e : Nat)
    (hc : c ≠ 0) :
    (w.repoDirExists = true →
       clone_repository b w = clone_repository b { w with pullExit := e }) ∧
    (w.repoDirExists = false → w.cloneExit = c →
       clone_repository b w = Except.error c ∧
       (check_dependencies b w = Except.ok b1 →
          build_and_run b w =
            ([Stage.checkDeps, Stage.cloneRepo], Except.error c))) := by
  constructor
  · intro hr
    unfold clone_repository
    simp [hr, run_command]
  · intro hr hcl
    have hclone : clone_repository b w = Except.error c := by
      unfold clone_repository
      simp [hr, hcl, run_command, hc]
    refine ⟨hclone, fun hok => ?_⟩
    have hclone1 : clone_repository b1 w = Except.error c := by
      unfold clone_repository
      simp [hr, hcl, run_command, hc]
    simp only [build_and_run, hok, hclone1]

/-- Witness for C5: with no checkout on disk and a clone failing with
code 128, the pipeline stops after the clone stage with exit code 128. -/
theorem C5_update_vs_clone_witness :
    build_and_run bDef wCloneFail =
      ([Stage.checkDeps, Stage.cloneRepo], Except.error 128) := by
  have h := (C5_update_vs_clone bDef
      { bDef with runtime_cmd := some "docker" } wCloneFail 128 5
      (by decide)).2 rfl rfl
  exact h.2 rfl

/-- C9 counterexample: with the descriptor found only under `ex`, the
source-preparation stage reassigns the checkout-directory field
`repo_dir` of the builder, so the configuration is not left unmutated. -/
theorem C9_mutation_counterexample :
    clone_repository bR wRex = Except.ok { bR with repo_dir := "/r/ex" } ∧
    ("/r/ex" : String) ≠ bR.repo_dir := by
  exact ⟨rfl, by decide⟩

/-- C9 amended: the port, work-directory and runtime-preference fields are
never mutated by any stage; the checkout-directory field is also preserved
by the dependency check, but source preparation reassigns it — once, to
the resolved `ex` subdirectory — exactly when the descriptor is absent
from the checkout root. -/
theorem C9_config_immutability (b b1 : Builder) (w : World) :
    (check_dependencies b w = Except.ok b1 →
       b1.repo_dir = b.repo_dir ∧ b1.port = b.port ∧
       b1.workdir = b.workdir ∧
       b1.container_runtime = b.container_runtime) ∧
    (clone_repository b w = Except.ok b1 →
       b1.port = b.port ∧ b1.workdir = b.workdir ∧
       b1.container_runtime = b.container_runtime ∧
       (b1.repo_dir = b.repo_dir ∨
        (b1.repo_dir = pathJoin (w.resolve b.repo_dir) "ex" ∧
         w.fileExists (pathJoin (w.resolve b.repo_dir)
           "build.Dockerfile") = false))) := by
  constructor
  · intro h
    have hf := check_dependencies_preserves_fields b b1 w h
    exact ⟨hf.1, hf.2.1, hf.2.2.1, hf.2.2.2.1⟩
  · intro h
    unfold clone_repository at h
    split at h
    · exact Except.noConfusion h
    · split_ifs at h with h1 h2
      · injection h with h
        subst h
        exact ⟨rfl, rfl, rfl, Or.inl rfl⟩
      · injection h with h
        subst h
        exact ⟨rfl, rfl, rfl, Or.inr ⟨rfl, by simpa using h1⟩⟩

/-- Witness for C9 (amended): at the `ex`-layout world the reassigned
builder keeps its port, work directory and runtime preference. -/
theorem C9_config_immutability_witness :
    Builder.port { bR with repo_dir := "/r/ex" } = bR.port ∧
    Builder.workdir { bR with repo_dir := "/r/ex" } = bR.workdir := by
  have h := (C9_config_immutability bR { bR with repo_dir := "/r/ex" }
    wRex).2 rfl
  exact ⟨h.1, h.2.1⟩

/-- C3: the resolver takes the conventional path `repo_dir/binary_name`
when it exists; otherwise it falls back to the recursive search, using its
output when non-empty and exiting 1 when the search yields nothing; and
every successful resolution chmods the resolved path to `0o755`
(decimal 493), whichever branch found it. -/
theorem C3_verify_binary (b : Builder) (w : World) (p : String)
    (cc : ChmodCall) :
    (w.fileExists (pathJoin b.repo_dir b.binary_name) = true →
       verify_binary b w = Except.ok (pathJoin b.repo_dir b.binary_name,
         ⟨pathJoin b.repo_dir b.binary_name, 493⟩)) ∧
    (w.fileExists (pathJoin b.repo_dir b.binary_name) = false →
     w.findExit = 0 → findCapturedOutput w.findMatches ≠ "" →
       verify_binary b w = Except.ok (findCapturedOutput w.findMatches,
         ⟨findCapturedOutput w.findMatches, 493⟩)) ∧
    (w.fileExists (pathJoin b.repo_dir b.binary_name) = false →
     w.findExit = 0 → findCapturedOutput w.findMatches = "" →
       verify_binary b w = Except.error 1) ∧
    (verify_binary b w = Except.ok (p, cc) → cc = ⟨p, 493⟩) := by
  refine ⟨?_, ?_, ?_, ?_⟩
  · intro h1
    simp [verify_binary, h1]
  · intro h1 h2 h3
    simp [verify_binary, h1, run_command_captured, h2, h3]
  · intro h1 h2 h3
    simp [verify_binary, h1, run_command_captured, h2, h3]
  · intro h
    unfold verify_binary at h
    split_ifs at h with h1
    · simp only [Except.ok.injEq, Prod.mk.injEq] at h
      obtain ⟨hp, hcc⟩ := h
      subst hp
      subst hcc
      rfl
    · split at h
      · exact Except.noConfusion h
      · split_ifs at h with h2
        simp only [Except.ok.injEq, Prod.mk.injEq] at h
        obtain ⟨hp, hcc⟩ := h
        subst hp
        subst hcc
        rfl

/-- Witness for C3: at the baseline world the binary sits at the
conventional path and is chmod-ed there. -/
theorem C3_verify_binary_witness :
    verify_binary bDef wBase = Except.ok ("amadeus-node/amadeusd",
      ⟨"amadeus-node/amadeusd", 493⟩) := by
  exact (C3_verify_binary bDef wBase "amadeus-node/amadeusd"
    ⟨"amadeus-node/amadeusd", 493⟩).1 rfl

/-- C8 counterexample: when the fallback search returns two files, the
resolved path is the newline-join of both matches, not the first file of
the traversal order. -/
theorem C8_first_match_counterexample :
    verify_binary bR wTwoMatches =
      Except.ok ("/r/a/amadeusd\n/r/b/amadeusd",
        ⟨"/r/a/amadeusd\n/r/b/amadeusd", 493⟩) ∧
    wTwoMatches.findMatches.head? = some "/r/a/amadeusd" ∧
    ("/r/a/amadeusd\n/r/b/amadeusd" : String) ≠ "/r/a/amadeusd" := by
  exact ⟨rfl, rfl, by decide⟩

/-- C8 amended: when the conventional path is absent and the search output
is non-empty, the resolved binary path is the entire stripped, newline-
joined output of the search; it equals the first file of the traversal
order exactly in the case of a single match. -/
theorem C8_fallback_joined_output (b : Builder) (w : World)
    (h1 : w.fileExists (pathJoin b.repo_dir b.binary_name) = false)
    (h2 : w.findExit = 0)
    (h3 : findCapturedOutput w.findMatches ≠ "") :
    verify_binary b w = Except.ok (findCapturedOutput w.findMatches,
      ⟨findCapturedOutput w.findMatches, 493⟩) ∧
    ∀ m, w.findMatches = [m] → findCapturedOutput w.findMatches = m := by
  constructor
  · simp [verify_binary, h1, run_command_captured, h2, h3]
  · intro m hm
    rw [hm]
    rfl

/-- Witness for C8 (amended): with a single match the resolved path is
that match. -/
theorem C8_fallback_joined_output_witness :
    verify_binary bR wOneMatch =
      Except.ok ("/r/ex/amadeusd", ⟨"/r/ex/amadeusd", 493⟩) := by
  exact (C8_fallback_joined_output bR wOneMatch rfl rfl (by decide)).1

/-- C6: when the build descriptor is absent from both the resolved
checkout root and its `ex` subdirectory, the run never enters the
image-build stage. -/
theorem C6_no_image_build (b : Builder) (w : World)
    (h1 : w.fileExists (pathJoin (w.resolve b.repo_dir)
            "build.Dockerfile") = false)
    (h2 : w.fileExists (pathJoin (pathJoin (w.resolve b.repo_dir) "ex")
            "build.Dockerfile") = false) :
    Stage.buildImage ∉ (build_and_run b w).1 := by
  cases hd : check_dependencies b w with
  | error e =>
    simp only [build_and_run, hd]
    decide
  | ok b1 =>
    have hrd : b1.repo_dir = b.repo_dir :=
      (check_dependencies_preserves_fields b b1 w hd).1
    obtain ⟨e, he⟩ := clone_error_of_no_descriptor b1 w
      (by rw [hrd]; exact h1) (by rw [hrd]; exact h2)
    simp only [build_and_run, hd, he]
    decide

/-- Witness for C6 at a world with no files on disk at all. -/
theorem C6_no_image_build_witness :
    Stage.buildImage ∉ (build_and_run bDef wNoDesc).1 :=
  C6_no_image_build bDef wNoDesc rfl rfl

/-- C7: a failing external command's own exit code is propagated by
`sys.exit` into the process status; the internally detected fatal
conditions (missing descriptor, binary not found, launch failure) exit 1,
as does an unexpected exception; a keyboard interrupt exits 0. -/
theorem C7_exit_codes (b : Builder) (w : World) (c : Nat) (hc : c ≠ 0)
    (p : String) :
    run_command true c = Except.error c ∧
    (∀ tr e, build_and_run b w = (tr, Except.error e) →
       main_exit (PyEvent.completed (build_and_run b w)) = some e) ∧
    (w.repoDirExists = true →
     w.fileExists (pathJoin (w.resolve b.repo_dir)
         "build.Dockerfile") = false →
     w.fileExists (pathJoin (pathJoin (w.resolve b.repo_dir) "ex")
         "build.Dockerfile") = false →
       clone_repository b w = Except.error 1) ∧
    (w.fileExists (pathJoin b.repo_dir b.binary_name) = false →
     w.findExit = 0 → findCapturedOutput w.findMatches = "" →
       verify_binary b w = Except.error 1) ∧
    (w.execveSucceeds = false → run_node b w p = Except.error 1) ∧
    main_exit PyEvent.keyboardInterrupt = some 0 ∧
    main_exit PyEvent.otherException = some 1 := by
  refine ⟨?_, ?_, ?_, ?_, ?_, rfl, rfl⟩
  · simp [run_command, hc]
  · intro tr e h
    rw [h]
    rfl
  · intro hr h1 h2
    unfold clone_repository
    simp [hr, run_command, h1, h2]
  · intro h1 h2 h3
    simp [verify_binary, h1, run_command_captured, h2, h3]
  · intro hw
    simp [run_node, hw]

/-- Witness for C7 at exit code 3 and concrete events. -/
theorem C7_exit_codes_witness :
    run_command true 3 = Except.error 3 ∧
    main_exit PyEvent.keyboardInterrupt = some 0 ∧
    main_exit PyEvent.otherException = some 1 := by
  have h := C7_exit_codes bDef wBase 3 (by decide) "/r/amadeusd"
  exact ⟨h.1, h.2.2.2.2.2.1, h.2.2.2.2.2.2⟩

end Amadeus
